import Mathlib

/-!
Shallow embedding of the ingestion-and-notification core of the
twitter-api-bot repository, and proofs settling the frozen claims.

Sources embedded:
* `src/database.py`    (class `Database`: the watermark store and delivery ledger)
* `src/rate_limiter.py` (class `NotificationRateLimiter`)
* `src/ai_scheduler.py` (class `AIScheduler`: per-account cycle and drainer loop)
* `src/telegram_bot.py` / `src/whatsapp_handler.py` (the reply processors)

Conventions: tweet ids are transported as strings in the source but are
always compared through `int(...)`; they are modelled as `Nat`.  Wall-clock
times (`datetime.now()`) are modelled as rational numbers of seconds.
Collaborator I/O (Twitter fetch, AI scoring, Discord/WhatsApp sends) is
modelled by oracle functions supplied in an `Env` structure, exactly at the
call boundary of the source.  Python exceptions are modelled with `Except`
over an explicit `PyError` type.
-/

/-- A Python exception, restricted to the kinds the embedded code can raise. -/
inductive PyError where
  /-- `TypeError`, e.g. a call with the wrong number of positional arguments. -/
  | typeError (msg : String)
  /-- `KeyError` from a dict subscript with a missing key. -/
  | keyError (key : String)
  /-- `AttributeError` from accessing a method that a class does not define. -/
  | attributeError (name : String)
  /-- Database uniqueness-constraint violation raised by a bare INSERT. -/
  | uniqueViolation
deriving DecidableEq, Repr

/-- A tweet (`models.py`, class `Tweet`): id is transported as a string but
compared as an integer throughout the scheduler, so it is a `Nat` here;
`created_at` is an abstract timestamp used only for ordering. -/
structure Tweet where
  id : Nat
  text : String
  created_at : Nat
deriving DecidableEq, Repr

/-- An AI rating (`ai_analyzer.py`, class `TweetRating`): only the fields that
the scheduler's control flow reads are kept. -/
structure TweetRating where
  score : Nat
  category : String
  summary : String
  action : String
  reason : String
deriving DecidableEq, Repr

/-- Database state (`database.py`): the `sent_tweets` table rows as
(tweet_id, channel_id) pairs in insertion order, the `tweet_ratings` rows as
(tweet_id, score) pairs, and the `monitored_users` rows as
(username, last_tweet_id) pairs. -/
structure DB where
  sent_tweets : List (Nat × Nat)
  tweet_ratings : List (Nat × Nat)
  users : List (String × Option Nat)
deriving DecidableEq, Repr

/-- Association-list lookup of a monitored user row by username. -/
def lookupUser : List (String × Option Nat) → String → Option (Option Nat)
  | [], _ => none
  | (n, w) :: rest, u => if n = u then some w else lookupUser rest u

/-- The stored watermark of an account (`monitored_users.last_tweet_id`);
`none` when the row is absent or its watermark column is NULL. -/
def watermarkOf (db : DB) (u : String) : Option Nat :=
  match lookupUser db.users u with
  | some w => w
  | none => none

/-- `Database.is_tweet_sent` (database.py lines 208-215): SELECT on the
`sent_tweets` table for the (tweet_id, channel_id) pair. -/
def is_tweet_sent (db : DB) (tweet_id : Nat) (channel_id : Nat) : Bool :=
  decide ((tweet_id, channel_id) ∈ db.sent_tweets)

/-- `Database.record_sent_tweet` (database.py lines 217-226): a bare INSERT
into `sent_tweets`, which carries `UNIQUE(tweet_id, channel_id)`
(lines 81-92); inserting an existing pair raises a uniqueness violation and
leaves the table unchanged. -/
def record_sent_tweet (db : DB) (tweet_id : Nat) (channel_id : Nat) :
    Except PyError DB :=
  if (tweet_id, channel_id) ∈ db.sent_tweets then
    .error .uniqueViolation
  else
    .ok { db with sent_tweets := db.sent_tweets ++ [(tweet_id, channel_id)] }

/-- `Database.record_tweet_rating` (database.py lines 228-240): a bare INSERT
into `tweet_ratings`, which has no uniqueness constraint. -/
def record_tweet_rating (db : DB) (tweet_id : Nat) (score : Nat) : DB :=
  { db with tweet_ratings := db.tweet_ratings ++ [(tweet_id, score)] }

/-- `Database.update_user_last_tweet` (database.py lines 242-248): an
unconditional UPDATE of `last_tweet_id` for the username; there is no
comparison against the stored value. `update_user_last_tweet_id`
(lines 250-252) is an alias for it. -/
def update_user_last_tweet (db : DB) (u : String) (tweet_id : Nat) : DB :=
  { db with
    users := db.users.map (fun p => if p.1 = u then (p.1, some tweet_id) else p) }

/-- The methods the `Database` class in database.py actually defines
(async interface plus the sync compatibility block).  Accessing any other
attribute on the `db` singleton raises `AttributeError`. -/
def databaseMethods : List String :=
  ["init", "execute", "fetchone", "fetchall",
   "get_all_users", "get_all_channels", "is_tweet_sent", "record_sent_tweet",
   "record_tweet_rating", "update_user_last_tweet", "update_user_last_tweet_id",
   "set_user_inactive", "get_active_users_with_channels", "list_channels",
   "list_users", "create_channel", "delete_channel", "get_channel_by_name",
   "add_user", "remove_user", "query"]

/-- Python attribute lookup on an object whose class defines exactly the
methods in `methods`: a missing name raises `AttributeError`. -/
def pyGetAttr (methods : List String) (name : String) : Except PyError Unit :=
  if methods.contains name then .ok () else .error (.attributeError name)

-- Sanity: lookup after an update.
theorem lookupUser_map_update (l : List (String × Option Nat)) (u : String)
    (v : Nat) :
    lookupUser (l.map (fun p => if p.1 = u then (p.1, some v) else p)) u
      = (lookupUser l u).map (fun _ => some v) := by
  induction l with
  | nil => rfl
  | cons h t ih =>
    obtain ⟨n, w⟩ := h
    simp only [List.map_cons]
    by_cases hn : n = u
    · subst hn
      rw [if_pos rfl]
      simp [lookupUser]
    · simp only [if_neg hn]
      simp [lookupUser, hn, ih]

theorem watermarkOf_update (db : DB) (u : String) (v : Nat)
    (h : (lookupUser db.users u).isSome) :
    watermarkOf (update_user_last_tweet db u v) u = some v := by
  unfold watermarkOf update_user_last_tweet
  simp only [lookupUser_map_update]
  cases hl : lookupUser db.users u with
  | none => rw [hl] at h; simp at h
  | some w => simp

/-! ## Rate limiter (`rate_limiter.py`, class `NotificationRateLimiter`) -/

/-- A queued urgent tweet (`rate_limiter.py`, dataclass `QueuedTweet`).
The `received_at` timestamp field is defaulted at construction and never read
by any queue operation, so it is omitted. -/
structure QueuedTweet where
  username : String
  tweet_id : Nat
  text : String
  score : Nat
  category : String
  summary : String
  reason : String
deriving DecidableEq, Repr

/-- `NotificationRateLimiter.COOLDOWN_MINUTES` (rate_limiter.py line 36). -/
def COOLDOWN_MINUTES : ℚ := 15

/-- `NotificationRateLimiter.MAX_QUEUE_SIZE` (rate_limiter.py line 37). -/
def MAX_QUEUE_SIZE : Nat := 10

/-- Mutable state of the singleton rate limiter: the time of the last
notification (seconds, `none` before the first send) and the FIFO list that
backs the queue. -/
structure RateLimiterState where
  last_notification_time : Option ℚ
  queue : List QueuedTweet
deriving DecidableEq, Repr

/-- `should_send_notification` (rate_limiter.py lines 46-61): returns `false`
exactly when a previous notification exists and fewer than
`COOLDOWN_MINUTES` minutes have elapsed since it; `now` is in seconds and
the source divides `total_seconds()` by 60. -/
def should_send_notification (st : RateLimiterState) (now : ℚ) : Bool :=
  match st.last_notification_time with
  | none => true
  | some t => !((now - t) / 60 < COOLDOWN_MINUTES)

/-- `queue_tweet` (rate_limiter.py lines 63-101): a duplicate tweet_id is
not re-queued and `-1` is returned; otherwise the entry is appended, the
returned position is the length right after the append, and if the queue
then exceeds `MAX_QUEUE_SIZE` the entry at index 0 (the oldest) is removed
by `self.queue.pop(0)`. -/
def queue_tweet (q : List QueuedTweet) (t : QueuedTweet) : List QueuedTweet × Int :=
  if q.any (fun e => e.tweet_id = t.tweet_id) then
    (q, -1)
  else
    let q1 := q ++ [t]
    let position : Int := q1.length
    let q2 := if MAX_QUEUE_SIZE < q1.length then q1.drop 1 else q1
    (q2, position)

/-- `mark_notification_sent` (rate_limiter.py lines 103-107): records the
current time as the last notification time. -/
def mark_notification_sent (st : RateLimiterState) (now : ℚ) : RateLimiterState :=
  { st with last_notification_time := some now }

/-- `get_next_batch` (rate_limiter.py lines 163-168): slices the first
`max_size` entries off the front of the queue. -/
def get_next_batch (st : RateLimiterState) (max_size : Nat) :
    List QueuedTweet × RateLimiterState :=
  (st.queue.take max_size, { st with queue := st.queue.drop max_size })

/-- The value types appearing in the dict returned by `get_status`. -/
inductive StatusVal where
  | b (v : Bool)
  | q (v : ℚ)
  | n (v : Nat)
  | time (v : Option ℚ)
deriving DecidableEq, Repr

/-- `get_status` (rate_limiter.py lines 170-189): the exact keys of the
returned dict, in source order.  Note there is no "in_delay_period" key. -/
def get_status (st : RateLimiterState) (now : ℚ) : List (String × StatusVal) :=
  let elapsed := match st.last_notification_time with
    | some t => (now - t) / 60
    | none => 0
  let cooldown_remaining := match st.last_notification_time with
    | some _ => max 0 (COOLDOWN_MINUTES - elapsed)
    | none => 0
  let in_cooldown := match st.last_notification_time with
    | some _ => decide (0 < cooldown_remaining)
    | none => false
  [("in_cooldown", .b in_cooldown),
   ("cooldown_remaining_minutes", .q cooldown_remaining),
   ("cooldown_total_minutes", .q COOLDOWN_MINUTES),
   ("queue_size", .n st.queue.length),
   ("max_queue_size", .n MAX_QUEUE_SIZE),
   ("last_notification", .time st.last_notification_time)]

/-- Python dict subscript `d[k]`: `KeyError` when the key is absent. -/
def pyDictGet (d : List (String × StatusVal)) (k : String) :
    Except PyError StatusVal :=
  match d.lookup k with
  | some v => .ok v
  | none => .error (.keyError k)

/-- The methods the `NotificationRateLimiter` class actually defines; the
scheduler's drainer also calls `get_next_tweet`, which is not among them. -/
def rateLimiterMethods : List String :=
  ["should_send_notification", "queue_tweet", "mark_notification_sent",
   "get_queued_summary", "clear_queue", "get_next_batch", "get_status"]

/-! ## Cycle dispatcher (`ai_scheduler.py`, class `AIScheduler`)

The per-account cycle is modelled in the configuration the claims describe:
`ENABLE_AI_ANALYSIS` true, an analyzer and an urgent notifier present.
Collaborator calls are oracles in `Env`; `analyze t = none` models the
`analyzer.analyze_tweet` call raising (caught at ai_scheduler.py line 158,
leaving `rating = None`). -/

/-- Oracle outcomes of the collaborator calls made while processing one
tweet: the AI analyzer, the tiered Discord send result field `sent`, the
rate limiter admission answer, and the urgent (WhatsApp) send result. -/
structure Env where
  analyze : Tweet → Option TweetRating
  discordSent : Tweet → Bool
  shouldSend : Tweet → Bool
  urgentSent : Tweet → Bool

/-- Observable effects of processing one tweet, in source order. -/
inductive Event where
  /-- The dedup check hit and the loop executed `continue` (line 129-131). -/
  | skipped (id : Nat)
  /-- The analyzer returned a rating which was recorded (lines 137-153). -/
  | scored (id : Nat) (score : Nat)
  /-- Score below 2: filtered, no delivery (lines 166-168). -/
  | routedFilter (id : Nat)
  /-- Score in 2..7: synchronous tiered Discord send (lines 171-188). -/
  | routedDiscord (id : Nat) (sent : Bool)
  /-- A DeliveryRecord was written after a confirmed send (lines 180-187). -/
  | deliveryRecorded (id : Nat) (channel : Nat)
  /-- Score 8-10, admission said send now, WhatsApp confirmed; the rate
  limiter was marked and a pending record stored (lines 201-228). -/
  | urgentDelivered (id : Nat)
  /-- Score 8-10, admission said send now, WhatsApp send failed (line 230). -/
  | urgentFailed (id : Nat)
  /-- Score 8-10 during cooldown: queued via `queue_tweet` (lines 232-242). -/
  | urgentQueued (id : Nat)
deriving DecidableEq, Repr

/-- Number of positional parameters of `TieredDiscordClient.send_tweet`
(tiered_discord_client.py line 58), excluding `self`. -/
def sendTweetParamCount : Nat := 3

/-- Number of positional arguments passed to `discord.send_tweet` in the
fallback (no-rating) branch of `_handle_existing_user`
(ai_scheduler.py lines 249-255): `user.webhook_url, user.username, tweet,
rating-dict`. -/
def legacyCallArgCount : Nat := 4

/-- The fallback branch call `discord.send_tweet(user.webhook_url,
user.username, tweet, {...score 5...})`: in Python a call whose positional
argument count differs from the callee parameter count raises `TypeError`
before the callee body runs, so no delivery can be attempted. -/
def legacySendTweetCall : Except PyError Bool :=
  if legacyCallArgCount = sendTweetParamCount then
    .ok true
  else
    .error (.typeError "send_tweet takes 3 positional arguments but 4 were given")

/-- Result of processing a single tweet inside the `for tweet in new_tweets`
loop body of `_handle_existing_user` (ai_scheduler.py lines 123-268),
starting from database state `db`: the new database state, the emitted
events, and whether an uncaught exception aborted the loop. -/
structure StepOut where
  db : DB
  events : List Event
  aborted : Bool
deriving DecidableEq, Repr

/-- The loop body of `_handle_existing_user` for one tweet (the part after
the `newest_id` bookkeeping): dedup check, AI analysis, score routing.
The whole urgent branch sits in a `try/except` that only logs (line 244),
so it cannot abort the loop; the fallback branch's miscalled
`send_tweet` raises `TypeError`, which propagates. -/
def processOneTweet (env : Env) (ch : Nat) (db : DB) (t : Tweet) : StepOut :=
  if is_tweet_sent db t.id ch then
    ⟨db, [.skipped t.id], false⟩
  else
    match env.analyze t with
    | some rating =>
      let db := record_tweet_rating db t.id rating.score
      let evs := [Event.scored t.id rating.score]
      if rating.score < 2 then
        ⟨db, evs ++ [.routedFilter t.id], false⟩
      else if rating.score < 8 then
        if env.discordSent t then
          match record_sent_tweet db t.id ch with
          | .ok db2 =>
            ⟨db2, evs ++ [.routedDiscord t.id true, .deliveryRecorded t.id ch], false⟩
          | .error _ => ⟨db, evs ++ [.routedDiscord t.id true], true⟩
        else
          ⟨db, evs ++ [.routedDiscord t.id false], false⟩
      else
        if env.shouldSend t then
          if env.urgentSent t then
            ⟨db, evs ++ [.urgentDelivered t.id], false⟩
          else
            ⟨db, evs ++ [.urgentFailed t.id], false⟩
        else
          ⟨db, evs ++ [.urgentQueued t.id], false⟩
    | none =>
      -- analyzer raised, rating is None: control reaches the fallback branch,
      -- whose send_tweet call raises TypeError (see legacySendTweetCall).
      match legacySendTweetCall with
      | .ok sent =>
        if sent then
          match record_sent_tweet db t.id ch with
          | .ok db2 => ⟨db2, [.routedDiscord t.id true, .deliveryRecorded t.id ch], false⟩
          | .error _ => ⟨db, [.routedDiscord t.id true], true⟩
        else ⟨db, [.routedDiscord t.id false], false⟩
      | .error _ => ⟨db, [], true⟩

/-- Accumulated state of the `for tweet in new_tweets` loop: the running
`newest_id` (line 121-126) alongside the effects so far. -/
structure LoopState where
  db : DB
  newest : Nat
  events : List Event
  aborted : Bool
deriving DecidableEq, Repr

/-- One iteration of the loop: `newest_id` advances before the dedup check
(lines 124-126); once an exception has escaped, no further iteration runs. -/
def stepTweet (env : Env) (ch : Nat) (st : LoopState) (t : Tweet) : LoopState :=
  if st.aborted then st
  else
    let newest := max st.newest t.id
    let out := processOneTweet env ch st.db t
    ⟨out.db, newest, st.events ++ out.events, out.aborted⟩

/-- Stable insertion of a tweet after all entries with `created_at` not
exceeding its own; folding this is a stable ascending sort, matching
Python's stable `list.sort(key=lambda t: t.created_at)`. -/
def insertByTime : List Tweet → Tweet → List Tweet
  | [], t => [t]
  | h :: rest, t =>
    if h.created_at ≤ t.created_at then h :: insertByTime rest t
    else t :: h :: rest

/-- `new_tweets.sort(key=lambda t: t.created_at)` (ai_scheduler.py line 117). -/
def sortByTime (ts : List Tweet) : List Tweet :=
  ts.foldl insertByTime []

/-- `_handle_existing_user` (ai_scheduler.py lines 100-273): filter to ids
strictly above the watermark, sort ascending by creation time, run the loop,
and finally persist `newest_id` if it advanced — unless an exception escaped
the loop, in which case `_process_user`'s generic handler catches it and the
watermark write at line 272 never runs. -/
def handleExistingUser (env : Env) (ch : Nat) (db : DB) (username : String)
    (last_id : Nat) (tweets : List Tweet) : StepOut :=
  let new_tweets := sortByTime (tweets.filter (fun t => last_id < t.id))
  if new_tweets.isEmpty then ⟨db, [], false⟩
  else
    let st := new_tweets.foldl (stepTweet env ch) ⟨db, last_id, [], false⟩
    if st.aborted then ⟨st.db, st.events, true⟩
    else if last_id < st.newest then
      ⟨update_user_last_tweet st.db username st.newest, st.events, false⟩
    else ⟨st.db, st.events, false⟩

/-- `max(tweets, key=lambda t: int(t.id)).id` for a non-empty fetch
(`_handle_new_user`, ai_scheduler.py line 93): on `Nat` ids this equals a
fold of `max` seeded with 0. -/
def maxTweetId (ts : List Tweet) : Nat :=
  (ts.map Tweet.id).foldl max 0

/-- `_handle_new_user` (ai_scheduler.py lines 87-98): store the highest
fetched id as the watermark; nothing is sent and nothing else changes. -/
def handleNewUser (db : DB) (username : String) (tweets : List Tweet) : DB :=
  update_user_last_tweet db username (maxTweetId tweets)

/-- The body of `_process_user` (ai_scheduler.py lines 45-85) for one
account, given the fetched tweets: empty fetch returns immediately; an
account without a watermark takes the new-user path, otherwise the
existing-user path. -/
def processUser (env : Env) (ch : Nat) (db : DB) (username : String)
    (tweets : List Tweet) : StepOut :=
  if tweets.isEmpty then ⟨db, [], false⟩
  else
    match watermarkOf db username with
    | none => ⟨handleNewUser db username tweets, [], false⟩
    | some last_id => handleExistingUser env ch db username last_id tweets

/-- A sequence of cycles for one account: each `run_cycle` fetches a list of
tweets and runs `_process_user` on the database left by the previous cycle. -/
def runCycles (env : Env) (ch : Nat) (username : String) (db : DB)
    (fetches : List (List Tweet)) : DB :=
  fetches.foldl (fun d f => (processUser env ch d username f).db) db

/-- One fetch's contribution to the running maximum fetched id. -/
def stepMaxW (acc : Option Nat) (f : List Tweet) : Option Nat :=
  if f.isEmpty then acc
  else
    match acc with
    | none => some (maxTweetId f)
    | some m => some (max m (maxTweetId f))

/-- The maximum item id over a sequence of fetches, as the specification
phrases it: `none` while every fetch so far was empty. -/
def maxFetched (w : Option Nat) (fetches : List (List Tweet)) : Option Nat :=
  fetches.foldl stepMaxW w

/-- The initial database for a freshly registered account: one
`monitored_users` row with a NULL watermark and empty ledger tables. -/
def freshDB (u : String) : DB :=
  ⟨[], [], [(u, none)]⟩

/-- Order on stored watermarks: a missing watermark precedes every value. -/
def watermarkLe : Option Nat → Option Nat → Prop
  | none, _ => True
  | some _, none => False
  | some a, some b => a ≤ b

/-! ## Notification drainer (`ai_scheduler.py`, `_process_notification_queue`) -/

/-- Python truthiness of a status value, as `if status[...]` would test it. -/
def statusTruthy : StatusVal → Bool
  | .b v => v
  | .q v => decide (v ≠ 0)
  | .n v => decide (v ≠ 0)
  | .time v => v.isSome

/-- Observable effects of one drainer wake. -/
inductive DrainEvent where
  | popped (tweet_id : Nat)
  | urgentDelivered (tweet_id : Nat)
  | pendingStored (tweet_id : Nat)
deriving DecidableEq, Repr

/-- The body of one wake of `_process_notification_queue`
(ai_scheduler.py lines 354-417), inside its `try`: it reads
`status["in_delay_period"]` from `rate_limiter.get_status()` — a key that
dict does not contain — and would then call `rate_limiter.get_next_tweet()`,
a method `NotificationRateLimiter` does not define.  Everything after those
two statements (delivery, `mark_notification_sent`, `store_pending_tweet`)
is unreachable. -/
def processNotificationQueueWake (st : RateLimiterState) (now : ℚ) :
    Except PyError (RateLimiterState × List DrainEvent) := do
  let v ← pyDictGet (get_status st now) "in_delay_period"
  if statusTruthy v then
    return (st, [])
  let _ ← pyGetAttr rateLimiterMethods "get_next_tweet"
  return (st, [])

/-- One wake of the drainer loop with its enclosing
`except Exception` handler (ai_scheduler.py lines 419-420): an exception is
logged and the loop continues with nothing changed. -/
def drainerWake (st : RateLimiterState) (now : ℚ) :
    RateLimiterState × List DrainEvent × Option PyError :=
  match processNotificationQueueWake st now with
  | .ok (st2, evs) => (st2, evs, none)
  | .error e => (st, [], some e)

/-! ## Telegram reply processor (`telegram_bot.py`, class `TelegramBot`) -/

/-- One in-memory pending alert (`TelegramBot.pending_tweets[alert_id]`). -/
structure TgRecord where
  username : String
  text : String
  score : Nat
  category : String
  reason : String
  status : String
deriving DecidableEq, Repr

/-- Telegram-side state: the in-memory alert map and the durable
`pending_builds` rows.  The source intends the latter to live in the
database (telegram_bot.py line 28) but every accessor is missing from the
`Database` class, so the set of rows can never change. -/
structure TgState where
  pending : List (String × TgRecord)
  pendingBuilds : List String
deriving DecidableEq, Repr

/-- Association-list lookup of a pending alert, as `dict.get(alert_id)`. -/
def lookupTg : List (String × TgRecord) → String → Option TgRecord
  | [], _ => none
  | (k, r) :: rest, a => if k = a then some r else lookupTg rest a

/-- `self.pending_tweets[alert_id]["status"] = s`, guarded by
`if alert_id in self.pending_tweets` as in the source. -/
def setTgStatus (l : List (String × TgRecord)) (alert s : String) :
    List (String × TgRecord) :=
  l.map (fun p => if p.1 = alert then (p.1, { p.2 with status := s }) else p)

/-- Collaborator outcomes for the Telegram reply processor: whether the
awaited `discord_client.send_interesting` call raises (its `bool` result is
ignored by `process_reply`), and whether the build collaborator reports
success. -/
structure TgEnv where
  interestingRaises : Bool
  buildOk : Bool
deriving DecidableEq, Repr

/-- Side effects of the Telegram reply processor; plain text replies back to
the human (`send_message`) are not tracked. -/
inductive TgEvent where
  | sentInteresting (username text : String)
  | sentPrompt (alert : String)
  | buildInvoked (text username : String)
deriving DecidableEq, Repr

/-- `request_build_requirements` (telegram_bot.py lines 200-241): tries
`db.create_pending_build(...)` — the `Database` class has no such method, so
an `AttributeError` is raised and swallowed by the `except` at lines
217-218; no durable record is created.  The requirements prompt is then
sent and success returned. -/
def requestBuildRequirements (st : TgState) (alert : String) :
    TgState × List TgEvent × Bool :=
  match pyGetAttr databaseMethods "create_pending_build" with
  | .ok _ => (st, [.sentPrompt alert], true)
  | .error _ => (st, [.sentPrompt alert], true)

/-- `TelegramBot.process_reply` (telegram_bot.py lines 243-380).  When both
`user_text` and `chat_id` are supplied it first calls
`db.get_pending_build(alert_id)` (line 249) outside any handler; the
`Database` class does not define it, so that call raises an uncaught
`AttributeError`.  Otherwise the action is dispatched with no check of the
stored record state and no existence check: missing records are read
through `dict.get(alert_id, {})` with defaults `"unknown"` / `""`. -/
def telegramProcessReply (env : TgEnv) (st : TgState) (action alert : String)
    (user_text : Option String) (chat_id : Option Nat) :
    Except PyError (TgState × List TgEvent × Bool) := do
  if user_text.isSome && chat_id.isSome then
    let _ ← pyGetAttr databaseMethods "get_pending_build"
    pure ()
  let pending := lookupTg st.pending alert
  if action = "INTERESTING" then
    if env.interestingRaises then
      return (st, [], false)
    else
      let username := (pending.map TgRecord.username).getD "unknown"
      let text := (pending.map TgRecord.text).getD ""
      return (⟨setTgStatus st.pending alert "interesting", st.pendingBuilds⟩,
        [.sentInteresting username text], true)
  else if action = "NOTHING" then
    return (⟨setTgStatus st.pending alert "filtered", st.pendingBuilds⟩, [], true)
  else if action = "BUILD" then
    match chat_id with
    | some _ => return requestBuildRequirements st alert
    | none =>
      let text := (pending.map TgRecord.text).getD ""
      let username := (pending.map TgRecord.username).getD "unknown"
      if text = "" then
        return (st, [], false)
      else if env.buildOk then
        return (⟨setTgStatus st.pending alert "built", st.pendingBuilds⟩,
          [.buildInvoked text username], true)
      else
        return (st, [.buildInvoked text username], false)
  else
    return (st, [], false)

/-! ## WhatsApp reply processor (`whatsapp_handler.py`, class `WhatsAppActionHandler`) -/

/-- A stored pending tweet awaiting a WhatsApp reply
(`WhatsAppActionHandler.pending_tweets[phone]`); `status` is set to
`"pending"` at store time and never changed (completed records are deleted
instead). -/
structure WaRecord where
  username : String
  text : String
  score : Nat
  status : String
deriving DecidableEq, Repr

/-- WhatsApp-side state: the phone-keyed pending map. -/
structure WaState where
  pending : List (String × WaRecord)
deriving DecidableEq, Repr

/-- Association-list lookup by phone, as `phone in self.pending_tweets`. -/
def lookupWa : List (String × WaRecord) → String → Option WaRecord
  | [], _ => none
  | (k, r) :: rest, p => if k = p then some r else lookupWa rest p

/-- `del self.pending_tweets[phone]`. -/
def removeWa (l : List (String × WaRecord)) (phone : String) :
    List (String × WaRecord) :=
  l.filter (fun p => p.1 ≠ phone)

/-- `b in a` for Python strings: substring containment on character lists. -/
def listStartsWith : List Char → List Char → Bool
  | _, [] => true
  | [], _ :: _ => false
  | a :: as, b :: bs => a = b && listStartsWith as bs

/-- Helper for `containsSub`: scan for the pattern at every suffix. -/
def listContainsSub : List Char → List Char → Bool
  | [], sub => sub.isEmpty
  | a :: as, sub => listStartsWith (a :: as) sub || listContainsSub as sub

/-- Python `sub in s` on strings. -/
def containsSub (s sub : String) : Bool :=
  listContainsSub s.toList sub.toList

/-- `_parse_action` (whatsapp_handler.py lines 90-106) applied to the
already stripped and upper-cased reply. -/
def parseAction (reply : String) : String :=
  if ["INTERESTING", "YES", "SEND", "1", "DISCORD"].any
      (fun x => containsSub reply x) then "INTERESTING"
  else if ["NOTHING", "NO", "SKIP", "IGNORE", "2", "BAD", "TRASH"].any
      (fun x => containsSub reply x) then "NOTHING"
  else if ["BUILD", "CREATE", "MAKE", "PROJECT", "3", "REPO"].any
      (fun x => containsSub reply x) then "BUILD"
  else "UNKNOWN"

/-- Collaborator outcomes for the WhatsApp reply processor. -/
structure WaEnv where
  /-- `settings.DISCORD_WEBHOOK_INTERESTING` is configured. -/
  interestingWebhook : Bool
  /-- the `discord.send_tweet` call to the INTERESTING channel succeeds. -/
  sendOk : Bool
  /-- `enhanced_build_agent.build_project` reports success. -/
  buildOk : Bool
deriving DecidableEq, Repr

/-- Side effects of the WhatsApp reply processor; WhatsApp text replies back
to the human are not tracked. -/
inductive WaEvent where
  | discordSend (username : String) (ok : Bool)
  | buildInvoked (text username : String)
deriving DecidableEq, Repr

/-- Classification of the confirmation string `process_reply` returns. -/
inductive WaResult where
  /-- the "No pending tweet found" rejection (line 62). -/
  | notFound
  /-- an error confirmation string. -/
  | errorMsg
  /-- the "Build process completed" confirmation (line 283). -/
  | completed
  /-- the "Unknown reply" re-prompt (lines 83-88). -/
  | unknownPrompt
deriving DecidableEq, Repr

/-- `WhatsAppActionHandler.process_reply` (whatsapp_handler.py lines 52-88)
with its three handlers `_handle_interesting` (108-145), `_handle_nothing`
(147-174) and `_handle_build` (176-295).  A phone with no pending record is
rejected up front with the not-found message and nothing else happens.  For
an existing record: every handler ends by calling `db.log_user_action`,
which the `Database` class does not define; in `_handle_interesting` and
`_handle_build` the resulting `AttributeError` is caught by the surrounding
`except` (so the record is never deleted and an error string is returned),
while `_handle_nothing` has no handler and the error escapes. -/
def whatsappProcessReply (env : WaEnv) (st : WaState) (phone reply : String) :
    Except PyError (WaState × List WaEvent × WaResult) :=
  match lookupWa st.pending phone with
  | none => .ok (st, [], .notFound)
  | some rec =>
    let action := parseAction reply
    if action = "INTERESTING" then
      if !env.interestingWebhook then .ok (st, [], .errorMsg)
      else if env.sendOk then
        -- send succeeded, then db.log_user_action raises AttributeError,
        -- caught at line 143: record kept, error string returned.
        .ok (st, [.discordSend rec.username true], .errorMsg)
      else
        .ok (st, [.discordSend rec.username false], .errorMsg)
    else if action = "NOTHING" then
      -- db.log_user_action is the first statement and does not exist;
      -- no handler catches it here.
      .error (.attributeError "log_user_action")
    else if action = "BUILD" then
      let evs := [WaEvent.buildInvoked rec.text rec.username]
      if env.buildOk then
        -- success path reaches db.log_user_action, whose AttributeError is
        -- caught at line 285 before `del`: record kept, error string sent.
        .ok (st, evs, .errorMsg)
      else
        -- failure path sends the failure message, deletes the record and
        -- returns the completion confirmation (lines 265-283).
        .ok (⟨removeWa st.pending phone⟩, evs, .completed)
    else
      .ok (st, [], .unknownPrompt)

/-! ## Helper lemmas -/

theorem foldl_max_eq (l : List Nat) : ∀ m : Nat, l.foldl max m = max m (l.foldl max 0) := by
  induction l with
  | nil => intro m; simp
  | cons a l ih =>
    intro m
    simp only [List.foldl_cons]
    rw [ih (max m a), ih (max 0 a)]
    omega

theorem le_foldl_max (l : List Nat) (x : Nat) (hx : x ∈ l) : x ≤ l.foldl max 0 := by
  induction l with
  | nil => cases hx
  | cons a l ih =>
    simp only [List.foldl_cons]
    rw [foldl_max_eq]
    rcases List.mem_cons.mp hx with h | h
    · omega
    · have := ih h
      omega

theorem foldl_max_mem (l : List Nat) (hne : l ≠ []) : l.foldl max 0 ∈ l := by
  induction l with
  | nil => exact absurd rfl hne
  | cons a l ih =>
    simp only [List.foldl_cons]
    rw [foldl_max_eq]
    rcases eq_or_ne l [] with h | h
    · subst h; simp
    · have hm := ih h
      rcases Nat.le_total (l.foldl max 0) a with hle | hle
      · rw [max_eq_left (by omega)]
        simp
      · rw [max_eq_right (by omega)]
        exact List.mem_cons_of_mem a hm

/-! ## C3: delivery ledger -/

/-- Number of ledger rows equal to a given (item id, channel id) pair. -/
def countPair (l : List (Nat × Nat)) (p : Nat × Nat) : Nat :=
  (l.filter (fun x => x = p)).length

theorem countPair_eq_zero_of_not_mem (l : List (Nat × Nat)) (p : Nat × Nat)
    (h : p ∉ l) : countPair l p = 0 := by
  induction l with
  | nil => rfl
  | cons a l ih =>
    unfold countPair
    simp only [List.filter_cons]
    have ha : a ≠ p := fun hc => h (hc ▸ List.mem_cons_self a l)
    rw [if_neg (by simp [ha])]
    exact ih (fun hc => h (List.mem_cons_of_mem a hc))

theorem countPair_le_one_of_nodup (l : List (Nat × Nat)) (p : Nat × Nat)
    (h : l.Nodup) : countPair l p ≤ 1 := by
  induction l with
  | nil => exact Nat.zero_le 1
  | cons a l ih =>
    rcases List.nodup_cons.mp h with ⟨hna, hnd⟩
    unfold countPair
    simp only [List.filter_cons]
    by_cases hap : a = p
    · subst hap
      rw [if_pos (by simp)]
      have : countPair l a = 0 := countPair_eq_zero_of_not_mem l a hna
      unfold countPair at this
      simp [this]
    · rw [if_neg (by simp [hap])]
      exact ih hnd

/-- The delivery-ledger state left by one `record_sent_tweet` attempt: a
raised uniqueness violation aborts the INSERT atomically, leaving the
table as it was. -/
def applyRecord (db : DB) (p : Nat × Nat) : DB :=
  match record_sent_tweet db p.1 p.2 with
  | .ok db2 => db2
  | .error _ => db

theorem applyRecord_nodup (db : DB) (p : Nat × Nat)
    (h : db.sent_tweets.Nodup) : (applyRecord db p).sent_tweets.Nodup := by
  unfold applyRecord record_sent_tweet
  split
  · next db2 heq =>
    split at heq
    · cases heq
    · next hmem =>
      cases heq
      simp only [List.nodup_append, List.nodup_cons, List.nodup_nil]
      refine ⟨h, by simp, ?_⟩
      intro x hx
      simp only [List.mem_singleton]
      rintro rfl
      exact hmem hx
  · exact h

theorem foldl_applyRecord_nodup (ops : List (Nat × Nat)) :
    ∀ db : DB, db.sent_tweets.Nodup → (ops.foldl applyRecord db).sent_tweets.Nodup := by
  induction ops with
  | nil => intro db h; exact h
  | cons p ops ih =>
    intro db h
    exact ih (applyRecord db p) (applyRecord_nodup db p h)

/-- Claim C3 (counterexample): a Delivery Ledger insert for a
(item id, channel id) pair that already has a record is not a benign no-op —
the second bare INSERT of the pair (7, 1) raises a uniqueness violation. -/
theorem c3_duplicate_insert_raises :
    record_sent_tweet ⟨[], [], []⟩ 7 1 = .ok ⟨[(7, 1)], [], []⟩
    ∧ record_sent_tweet ⟨[(7, 1)], [], []⟩ 7 1 = .error .uniqueViolation := by
  constructor <;> rfl

/-- Claim C3 (amended): a duplicate ledger insert raises a uniqueness
violation and leaves the ledger unchanged (the INSERT aborts atomically);
consequently, starting from a duplicate-free ledger, after any sequence of
insert attempts at most one DeliveryRecord exists per (item id, channel id)
pair. -/
theorem c3_ledger_exactly_once (db : DB) (h : db.sent_tweets.Nodup) :
    (∀ id ch, (id, ch) ∈ db.sent_tweets →
        record_sent_tweet db id ch = .error .uniqueViolation)
    ∧ ∀ ops : List (Nat × Nat), ∀ p : Nat × Nat,
        countPair (ops.foldl applyRecord db).sent_tweets p ≤ 1 := by
  constructor
  · intro id ch hmem
    unfold record_sent_tweet
    rw [if_pos hmem]
  · intro ops p
    exact countPair_le_one_of_nodup _ p (foldl_applyRecord_nodup ops db h)

/-- Witness for C3 at the empty ledger. -/
theorem c3_ledger_exactly_once_witness :
    (∀ id ch, (id, ch) ∈ (⟨[], [], []⟩ : DB).sent_tweets →
        record_sent_tweet ⟨[], [], []⟩ id ch = .error .uniqueViolation)
    ∧ ∀ ops : List (Nat × Nat), ∀ p : Nat × Nat,
        (countPair (ops.foldl applyRecord ⟨[], [], []⟩).sent_tweets p ≤ 1) :=
  c3_ledger_exactly_once ⟨[], [], []⟩ (by simp)

/-! ## C2: watermark store -/

/-- Claim C2 (counterexample): the watermark store does not reject a write
below the stored value — `update_user_last_tweet` is an unconditional
UPDATE, so writing 50 over a stored watermark of 100 changes the stored
value to 50. -/
theorem c2_low_write_not_rejected :
    watermarkOf (⟨[], [], [("alice", some 100)]⟩ : DB) "alice" = some 100
    ∧ watermarkOf
        (update_user_last_tweet ⟨[], [], [("alice", some 100)]⟩ "alice" 50)
        "alice" = some 50
    ∧ 50 < 100 := by
  refine ⟨rfl, ?_, by norm_num⟩
  rfl

/-! ## C5: queue bound and eviction -/

theorem queue_tweet_length_le (q : List QueuedTweet) (t : QueuedTweet)
    (h : q.length ≤ MAX_QUEUE_SIZE) :
    (queue_tweet q t).1.length ≤ MAX_QUEUE_SIZE := by
  unfold queue_tweet
  split
  · exact h
  · simp only []
    split
    · next hgt =>
      simp only [List.length_drop, List.length_append, List.length_cons,
        List.length_nil] at *
      omega
    · next hle =>
      simp only [List.length_append, List.length_cons, List.length_nil,
        Nat.not_lt] at *
      omega

theorem foldl_queue_tweet_length_le (ts : List QueuedTweet) :
    ∀ q : List QueuedTweet, q.length ≤ MAX_QUEUE_SIZE →
      (ts.foldl (fun q t => (queue_tweet q t).1) q).length ≤ MAX_QUEUE_SIZE := by
  induction ts with
  | nil => intro q h; exact h
  | cons t ts ih =>
    intro q h
    exact ih _ (queue_tweet_length_le q t h)

/-- Claim C5 (counterexample): the eviction performed by `queue_tweet` does
not remove the lowest-scoring entry.  With a full queue whose oldest entry
scores 10 and whose other nine entries score 1, admitting a tenth distinct
tweet evicts the score-10 entry while score-1 entries remain. -/
def qOld : QueuedTweet := ⟨"alice", 1, "top", 10, "AI", "s", "r"⟩

/-- A low-scoring filler entry for the C5 counterexample queue. -/
def qLow (i : Nat) : QueuedTweet := ⟨"bob", 2 + i, "low", 1, "AI", "s", "r"⟩

/-- The full queue of the C5 counterexample: oldest entry scores highest. -/
def qFull : List QueuedTweet :=
  qOld :: (List.range 9).map qLow

/-- The new admission of the C5 counterexample. -/
def qNew : QueuedTweet := ⟨"carol", 100, "mid", 9, "AI", "s", "r"⟩

theorem c5_eviction_not_lowest_score :
    qFull.length = MAX_QUEUE_SIZE
    ∧ (queue_tweet qFull qNew).1 = (List.range 9).map qLow ++ [qNew]
    ∧ qFull.contains qOld = true
    ∧ ((queue_tweet qFull qNew).1).contains qOld = false
    ∧ ((queue_tweet qFull qNew).1).contains (qLow 0) = true
    ∧ (qLow 0).score < qOld.score := by
  refine ⟨by decide, by decide, by decide, by decide, by decide, by decide⟩

/-- Claim C5 (amended): after any sequence of admissions the queue never
exceeds `MAX_QUEUE_SIZE` entries, and when an admission of a non-duplicate
tweet finds the queue full, the evicted entry is the oldest one (the front
of the FIFO list), regardless of score. -/
theorem c5_bound_and_fifo_eviction :
    (∀ ts : List QueuedTweet,
        (ts.foldl (fun q t => (queue_tweet q t).1) []).length ≤ MAX_QUEUE_SIZE)
    ∧ ∀ (q : List QueuedTweet) (t : QueuedTweet),
        q.length = MAX_QUEUE_SIZE →
        q.any (fun e => e.tweet_id = t.tweet_id) = false →
        (queue_tweet q t).1 = q.drop 1 ++ [t] := by
  constructor
  · intro ts
    exact foldl_queue_tweet_length_le ts [] (by simp [MAX_QUEUE_SIZE])
  · intro q t hlen hdup
    unfold queue_tweet
    rw [hdup]
    simp only [Bool.false_eq_true, if_false]
    have hq : MAX_QUEUE_SIZE < (q ++ [t]).length := by
      simp [hlen]
    rw [if_pos hq]
    cases q with
    | nil => simp [MAX_QUEUE_SIZE] at hlen
    | cons a q2 => simp

/-- Witness for C5 at the counterexample queue. -/
theorem c5_bound_and_fifo_eviction_witness :
    qFull.length = MAX_QUEUE_SIZE
    ∧ (queue_tweet qFull qNew).1 = qFull.drop 1 ++ [qNew] :=
  ⟨by decide, c5_bound_and_fifo_eviction.2 qFull qNew (by decide) (by decide)⟩

/-! ## C6: the notification drainer -/

/-- Claim C6: on every wake of the background drainer, the first statement
`status["in_delay_period"]` raises `KeyError` (the dict returned by
`get_status` has no such key); the enclosing handler logs it and continues,
so no entry is ever popped, nothing is delivered, the rate limiter is never
marked, and no pending action is created. -/
theorem c6_drainer_wake_always_fails (st : RateLimiterState) (now : ℚ) :
    processNotificationQueueWake st now = .error (.keyError "in_delay_period")
    ∧ drainerWake st now = (st, [], some (.keyError "in_delay_period")) :=
  ⟨rfl, rfl⟩

/-! ## C4: urgent-channel cooldown -/

/-- Trace of the admission protocol used by the scheduler
(ai_scheduler.py lines 197-215): each step checks
`should_send_notification` at its time; on an admitted and confirmed send,
`mark_notification_sent` records that time.  The returned list is the times
of the successful immediate deliveries, in order. -/
def collectDeliveries (st : RateLimiterState) : List (ℚ × Bool) → List ℚ
  | [] => []
  | (now, sent) :: rest =>
    if should_send_notification st now then
      if sent then now :: collectDeliveries (mark_notification_sent st now) rest
      else collectDeliveries st rest
    else collectDeliveries st rest

theorem should_send_iff (st : RateLimiterState) (now : ℚ) :
    should_send_notification st now = true ↔
      (st.last_notification_time = none ∨
        ∃ t0, st.last_notification_time = some t0 ∧ t0 + 900 ≤ now) := by
  unfold should_send_notification
  cases hl : st.last_notification_time with
  | none => simp
  | some t0 =>
    simp only [Bool.not_eq_eq_eq_not, Bool.not_true, decide_eq_false_iff_not,
      not_lt, reduceCtorEq, false_or]
    constructor
    · intro h
      refine ⟨t0, rfl, ?_⟩
      have h60 : (0:ℚ) < 60 := by norm_num
      have := (div_le_div_iff_of_pos_right h60).mpr h
      rw [le_div_iff₀ h60] at h
      unfold COOLDOWN_MINUTES at h
      linarith
    · rintro ⟨t1, ht1, h⟩
      injection ht1 with ht1
      subst ht1
      rw [le_div_iff₀ (by norm_num : (0:ℚ) < 60)]
      unfold COOLDOWN_MINUTES
      linarith

theorem collectDeliveries_lower_bound (evs : List (ℚ × Bool)) :
    ∀ (st : RateLimiterState) (t0 : ℚ),
      st.last_notification_time = some t0 →
      ∀ d ∈ collectDeliveries st evs, t0 + 900 ≤ d := by
  induction evs with
  | nil => intro st t0 _ d hd; cases hd
  | cons ev rest ih =>
    intro st t0 hst d hd
    obtain ⟨now, sent⟩ := ev
    unfold collectDeliveries at hd
    by_cases hs : should_send_notification st now = true
    · rw [if_pos hs] at hd
      have hbound : t0 + 900 ≤ now := by
        rcases (should_send_iff st now).mp hs with hnone | ⟨t1, ht1, hle⟩
        · rw [hst] at hnone; cases hnone
        · rw [hst] at ht1
          injection ht1 with ht1
          rw [ht1]
          exact hle
      cases sent with
      | true =>
        rw [if_pos rfl] at hd
        rcases List.mem_cons.mp hd with rfl | hd2
        · exact hbound
        · have hrec := ih (mark_notification_sent st now) now rfl d hd2
          linarith
      | false =>
        rw [if_neg (by simp)] at hd
        exact ih st t0 hst d hd
    · rw [if_neg hs] at hd
      exact ih st t0 hst d hd

theorem collectDeliveries_chain (evs : List (ℚ × Bool)) :
    ∀ st : RateLimiterState,
      List.Chain' (fun a b => a + 900 ≤ b) (collectDeliveries st evs) := by
  induction evs with
  | nil => intro st; exact List.chain'_nil
  | cons ev rest ih =>
    intro st
    obtain ⟨now, sent⟩ := ev
    unfold collectDeliveries
    by_cases hs : should_send_notification st now = true
    · rw [if_pos hs]
      cases sent with
      | true =>
        rw [if_pos rfl, List.chain'_cons']
        refine ⟨?_, ih (mark_notification_sent st now)⟩
        intro b hb
        have hmem : b ∈ collectDeliveries (mark_notification_sent st now) rest :=
          List.mem_of_mem_head? hb
        exact collectDeliveries_lower_bound rest
          (mark_notification_sent st now) now rfl b hmem
      | false =>
        rw [if_neg (by simp)]
        exact ih st
    · rw [if_neg hs]
      exact ih st

/-- Claim C4: the admission check tells the caller to deliver immediately
exactly when there is no prior delivery or at least the 15-minute cooldown
(900 seconds) has elapsed since `last_notification_time`; and along any
admission trace started from a fresh rate limiter, consecutive successful
immediate deliveries are at least one cooldown apart (hence so is every
later pair, the gaps being positive). -/
theorem c4_cooldown_invariant :
    (∀ (st : RateLimiterState) (now : ℚ),
      should_send_notification st now = true ↔
        (st.last_notification_time = none ∨
          ∃ t0, st.last_notification_time = some t0 ∧ t0 + 900 ≤ now))
    ∧ ∀ evs : List (ℚ × Bool),
        List.Chain' (fun a b => a + 900 ≤ b)
          (collectDeliveries ⟨none, []⟩ evs) :=
  ⟨should_send_iff, fun evs => collectDeliveries_chain evs ⟨none, []⟩⟩

/-! ## C9: first run of an account -/

theorem maxTweetId_ge (ts : List Tweet) (t : Tweet) (ht : t ∈ ts) :
    t.id ≤ maxTweetId ts :=
  le_foldl_max (ts.map Tweet.id) t.id (List.mem_map_of_mem Tweet.id ht)

theorem maxTweetId_mem (ts : List Tweet) (hne : ts ≠ []) :
    ∃ t ∈ ts, t.id = maxTweetId ts := by
  have hm : maxTweetId ts ∈ ts.map Tweet.id :=
    foldl_max_mem (ts.map Tweet.id) (by simpa using hne)
  rcases List.mem_map.mp hm with ⟨t, ht, hid⟩
  exact ⟨t, ht, hid⟩

/-- Claim C9: for an account with no stored watermark whose fetch is
non-empty, the cycle stores the highest fetched item id as the watermark
and emits no events at all (in particular no deliveries). -/
theorem c9_first_run_sets_watermark (env : Env) (ch : Nat) (db : DB)
    (u : String) (tweets : List Tweet)
    (hrow : lookupUser db.users u = some none) (hne : tweets ≠ []) :
    processUser env ch db u tweets =
      ⟨update_user_last_tweet db u (maxTweetId tweets), [], false⟩
    ∧ watermarkOf (processUser env ch db u tweets).db u = some (maxTweetId tweets)
    ∧ (∀ t ∈ tweets, t.id ≤ maxTweetId tweets)
    ∧ (∃ t ∈ tweets, t.id = maxTweetId tweets) := by
  have hwm : watermarkOf db u = none := by
    unfold watermarkOf
    rw [hrow]
  have hempty : tweets.isEmpty = false := by
    cases tweets with
    | nil => exact absurd rfl hne
    | cons a l => rfl
  have hp : processUser env ch db u tweets =
      ⟨update_user_last_tweet db u (maxTweetId tweets), [], false⟩ := by
    unfold processUser
    rw [hempty]
    simp only [Bool.false_eq_true, if_false]
    rw [hwm]
    rfl
  refine ⟨hp, ?_, fun t ht => maxTweetId_ge tweets t ht, maxTweetId_mem tweets hne⟩
  rw [hp]
  exact watermarkOf_update db u (maxTweetId tweets) (by rw [hrow]; rfl)

/-- Witness for C9: a fresh account fetching items 101, 102, 103 ends with
watermark 103 and no deliveries. -/
theorem c9_first_run_sets_watermark_witness :
    processUser ⟨fun _ => none, fun _ => false, fun _ => false, fun _ => false⟩
        1 (freshDB "alice") "alice"
        [⟨101, "a", 1⟩, ⟨102, "b", 2⟩, ⟨103, "c", 3⟩] =
      ⟨update_user_last_tweet (freshDB "alice") "alice"
        (maxTweetId [⟨101, "a", 1⟩, ⟨102, "b", 2⟩, ⟨103, "c", 3⟩]), [], false⟩
    ∧ watermarkOf
        (processUser ⟨fun _ => none, fun _ => false, fun _ => false, fun _ => false⟩
          1 (freshDB "alice") "alice"
          [⟨101, "a", 1⟩, ⟨102, "b", 2⟩, ⟨103, "c", 3⟩]).db "alice" =
        some (maxTweetId [⟨101, "a", 1⟩, ⟨102, "b", 2⟩, ⟨103, "c", 3⟩])
    ∧ (∀ t ∈ [⟨101, "a", 1⟩, ⟨102, "b", 2⟩, (⟨103, "c", 3⟩ : Tweet)],
        t.id ≤ maxTweetId [⟨101, "a", 1⟩, ⟨102, "b", 2⟩, ⟨103, "c", 3⟩])
    ∧ (∃ t ∈ [⟨101, "a", 1⟩, ⟨102, "b", 2⟩, (⟨103, "c", 3⟩ : Tweet)],
        t.id = maxTweetId [⟨101, "a", 1⟩, ⟨102, "b", 2⟩, ⟨103, "c", 3⟩]) :=
  c9_first_run_sets_watermark _ 1 (freshDB "alice") "alice" _ (by rfl) (by simp)

/-! ## C1: per-item dedup guard -/

/-- Events that constitute routing a tweet by its score tier. -/
def isRouteEvent : Event → Bool
  | .routedFilter _ => true
  | .routedDiscord _ _ => true
  | .urgentDelivered _ => true
  | .urgentFailed _ => true
  | .urgentQueued _ => true
  | _ => false

theorem processOneTweet_not_sent_spec (env : Env) (ch : Nat) (db : DB)
    (t : Tweet) (r : TweetRating)
    (hr : env.analyze t = some r)
    (hsf : is_tweet_sent db t.id ch = false) :
    ∃ re rest,
      (processOneTweet env ch db t).events = .scored t.id r.score :: re :: rest
      ∧ isRouteEvent re = true
      ∧ Event.skipped t.id ∉ (processOneTweet env ch db t).events := by
  have hmem : (t.id, ch) ∉ db.sent_tweets := by
    simpa [is_tweet_sent] using hsf
  have hrec : record_sent_tweet (record_tweet_rating db t.id r.score) t.id ch =
      .ok { record_tweet_rating db t.id r.score with
            sent_tweets := db.sent_tweets ++ [(t.id, ch)] } := by
    unfold record_sent_tweet record_tweet_rating
    rw [if_neg hmem]
  simp only [processOneTweet, hsf, hr, Bool.false_eq_true, if_false, hrec]
  by_cases h2 : r.score < 2
  · rw [if_pos h2]
    exact ⟨_, _, rfl, rfl, by simp⟩
  · rw [if_neg h2]
    by_cases h8 : r.score < 8
    · rw [if_pos h8]
      by_cases hds : env.discordSent t = true
      · rw [if_pos hds]
        exact ⟨_, _, rfl, rfl, by simp⟩
      · rw [if_neg hds]
        exact ⟨_, _, rfl, rfl, by simp⟩
    · rw [if_neg h8]
      by_cases hss : env.shouldSend t = true
      · rw [if_pos hss]
        by_cases hus : env.urgentSent t = true
        · rw [if_pos hus]
          exact ⟨_, _, rfl, rfl, by simp⟩
        · rw [if_neg hus]
          exact ⟨_, _, rfl, rfl, by simp⟩
      · rw [if_neg hss]
        exact ⟨_, _, rfl, rfl, by simp⟩

/-- Claim C1: inside a cycle, a candidate item is skipped — no scoring, no
routing, no delivery, database untouched — exactly when a DeliveryRecord
already exists for (item id, primary channel); when none exists (and the
scorer answers), the item is scored and a routing event is emitted. -/
theorem c1_skip_iff_delivery_record (env : Env) (ch : Nat) (db : DB)
    (t : Tweet) (r : TweetRating) (hr : env.analyze t = some r) :
    (processOneTweet env ch db t = ⟨db, [.skipped t.id], false⟩ ↔
        is_tweet_sent db t.id ch = true)
    ∧ (is_tweet_sent db t.id ch = false →
        Event.scored t.id r.score ∈ (processOneTweet env ch db t).events
        ∧ (processOneTweet env ch db t).events.any isRouteEvent = true)
    ∧ (Event.skipped t.id ∈ (processOneTweet env ch db t).events ↔
        is_tweet_sent db t.id ch = true) := by
  by_cases hs : is_tweet_sent db t.id ch = true
  · have hp : processOneTweet env ch db t = ⟨db, [.skipped t.id], false⟩ := by
      unfold processOneTweet
      rw [if_pos hs]
    refine ⟨⟨fun _ => hs, fun _ => hp⟩, ?_, ?_⟩
    · intro hfalse
      rw [hs] at hfalse
      cases hfalse
    · rw [hp]
      simp [hs]
  · have hsf : is_tweet_sent db t.id ch = false := by
      revert hs
      cases is_tweet_sent db t.id ch <;> simp
    obtain ⟨re, rest, hev, hroute, hnotskip⟩ :=
      processOneTweet_not_sent_spec env ch db t r hr hsf
    refine ⟨⟨?_, fun h => absurd h hs⟩, ?_, ⟨fun hmem => absurd hmem hnotskip,
      fun h => absurd h hs⟩⟩
    · intro heq
      rw [heq] at hev
      cases hev
    · intro _
      constructor
      · rw [hev]
        exact List.mem_cons_self _ _
      · rw [hev]
        simp [List.any_cons, hroute]

/-- Witness for C1: a fresh database holds no record for item 5, so the item
is scored and routed; the same step on a database holding the record skips. -/
theorem c1_skip_iff_delivery_record_witness :
    (processOneTweet
        ⟨fun _ => some ⟨5, "c", "s", "send", "r"⟩, fun _ => true,
          fun _ => true, fun _ => true⟩ 1 ⟨[], [], []⟩ ⟨5, "x", 1⟩ =
        ⟨(⟨[], [], []⟩ : DB), [.skipped 5], false⟩ ↔
      is_tweet_sent ⟨[], [], []⟩ 5 1 = true)
    ∧ (is_tweet_sent ⟨[], [], []⟩ 5 1 = false →
        Event.scored 5 5 ∈ (processOneTweet
          ⟨fun _ => some ⟨5, "c", "s", "send", "r"⟩, fun _ => true,
            fun _ => true, fun _ => true⟩ 1 ⟨[], [], []⟩ ⟨5, "x", 1⟩).events
        ∧ ((processOneTweet
          ⟨fun _ => some ⟨5, "c", "s", "send", "r"⟩, fun _ => true,
            fun _ => true, fun _ => true⟩ 1 ⟨[], [], []⟩
            ⟨5, "x", 1⟩).events.any isRouteEvent = true))
    ∧ (Event.skipped 5 ∈ (processOneTweet
        ⟨fun _ => some ⟨5, "c", "s", "send", "r"⟩, fun _ => true,
          fun _ => true, fun _ => true⟩ 1 ⟨[], [], []⟩ ⟨5, "x", 1⟩).events ↔
      is_tweet_sent ⟨[], [], []⟩ 5 1 = true) :=
  c1_skip_iff_delivery_record _ 1 ⟨[], [], []⟩ ⟨5, "x", 1⟩
    ⟨5, "c", "s", "send", "r"⟩ rfl

/-! ## C10: scoring failure -/

/-- Environment of the C10 failing input: scoring raises on tweet 101 and
succeeds (score 8) on tweet 102; every send would succeed. -/
def envC10 : Env :=
  ⟨fun t => if t.id = 101 then none else some ⟨8, "AI", "s", "send", "r"⟩,
   fun _ => true, fun _ => true, fun _ => true⟩

/-- Database of the C10 failing input: account alice, watermark 100. -/
def dbC10 : DB := ⟨[], [], [("alice", some 100)]⟩

/-- Claim C10 (failing input): when scoring fails for tweet 101, control
reaches the fallback branch, whose `send_tweet` call passes four positional
arguments to a three-parameter method; the resulting `TypeError` escapes the
loop, so tweet 101 is never routed, tweet 102 is never processed at all,
and the watermark write is skipped — the account cycle aborts with no event
and no database change. -/
theorem c10_scoring_failure_aborts_cycle :
    legacyCallArgCount ≠ sendTweetParamCount
    ∧ legacySendTweetCall =
        .error (.typeError "send_tweet takes 3 positional arguments but 4 were given")
    ∧ processUser envC10 1 dbC10 "alice"
        [⟨101, "a", 1⟩, ⟨102, "b", 2⟩] = ⟨dbC10, [], true⟩
    ∧ watermarkOf (processUser envC10 1 dbC10 "alice"
        [⟨101, "a", 1⟩, ⟨102, "b", 2⟩]).db "alice" = some 100 := by
  refine ⟨by decide, by rfl, by decide, by decide⟩

/-! ## C2: watermark monotonicity across cycles -/

theorem record_sent_tweet_of_not_mem (db : DB) (id ch : Nat)
    (h : (id, ch) ∉ db.sent_tweets) :
    record_sent_tweet db id ch =
      .ok { db with sent_tweets := db.sent_tweets ++ [(id, ch)] } := by
  unfold record_sent_tweet
  rw [if_neg h]

theorem processOneTweet_preserves (env : Env) (ch : Nat) (db : DB) (t : Tweet)
    (hA : (env.analyze t).isSome) :
    (processOneTweet env ch db t).db.users = db.users
    ∧ (processOneTweet env ch db t).aborted = false := by
  rcases Option.isSome_iff_exists.mp hA with ⟨r, hr⟩
  by_cases hs : is_tweet_sent db t.id ch = true
  · unfold processOneTweet
    rw [if_pos hs]
    exact ⟨rfl, rfl⟩
  · have hsf : is_tweet_sent db t.id ch = false := by
      revert hs
      cases is_tweet_sent db t.id ch <;> simp
    have hmem : (t.id, ch) ∉ db.sent_tweets := by
      simpa [is_tweet_sent] using hsf
    have hmem2 : (t.id, ch) ∉ (record_tweet_rating db t.id r.score).sent_tweets := hmem
    simp only [processOneTweet, hsf, hr, Bool.false_eq_true, if_false,
      record_sent_tweet_of_not_mem _ _ _ hmem2]
    by_cases h2 : r.score < 2
    · rw [if_pos h2]
      exact ⟨rfl, rfl⟩
    · rw [if_neg h2]
      by_cases h8 : r.score < 8
      · rw [if_pos h8]
        by_cases hds : env.discordSent t = true
        · rw [if_pos hds]
          exact ⟨rfl, rfl⟩
        · rw [if_neg hds]
          exact ⟨rfl, rfl⟩
      · rw [if_neg h8]
        by_cases hss : env.shouldSend t = true
        · rw [if_pos hss]
          by_cases hus : env.urgentSent t = true
          · rw [if_pos hus]
            exact ⟨rfl, rfl⟩
          · rw [if_neg hus]
            exact ⟨rfl, rfl⟩
        · rw [if_neg hss]
          exact ⟨rfl, rfl⟩

theorem foldl_stepTweet_spec (env : Env) (ch : Nat)
    (hA : ∀ t, (env.analyze t).isSome) (ts : List Tweet) :
    ∀ st : LoopState, st.aborted = false →
      (ts.foldl (stepTweet env ch) st).aborted = false
      ∧ (ts.foldl (stepTweet env ch) st).newest
          = (ts.map Tweet.id).foldl max st.newest
      ∧ (ts.foldl (stepTweet env ch) st).db.users = st.db.users := by
  induction ts with
  | nil => intro st h; exact ⟨h, rfl, rfl⟩
  | cons t ts ih =>
    intro st h
    have hone := processOneTweet_preserves env ch st.db t (hA t)
    have hstep : stepTweet env ch st t =
        ⟨(processOneTweet env ch st.db t).db, max st.newest t.id,
          st.events ++ (processOneTweet env ch st.db t).events,
          (processOneTweet env ch st.db t).aborted⟩ := by
      unfold stepTweet
      rw [if_neg (by simp [h])]
    have h2 : (stepTweet env ch st t).aborted = false := by
      rw [hstep]
      exact hone.2
    obtain ⟨ha, hn, hu⟩ := ih (stepTweet env ch st t) h2
    simp only [List.foldl_cons, List.map_cons]
    refine ⟨ha, ?_, ?_⟩
    · rw [hn, hstep]
    · rw [hu, hstep]
      exact hone.1

theorem listMax_cons (a : Nat) (l : List Nat) :
    (a :: l).foldl max 0 = max a (l.foldl max 0) := by
  simp only [List.foldl_cons]
  rw [foldl_max_eq]
  omega

theorem insertByTime_perm (l : List Tweet) (t : Tweet) :
    (insertByTime l t).Perm (t :: l) := by
  induction l with
  | nil => exact List.Perm.refl _
  | cons h rest ih =>
    unfold insertByTime
    split
    · exact (ih.cons h).trans (List.Perm.swap t h rest)
    · exact List.Perm.refl _

theorem foldl_insertByTime_perm (l : List Tweet) :
    ∀ acc : List Tweet, (l.foldl insertByTime acc).Perm (acc ++ l) := by
  induction l with
  | nil => intro acc; simp
  | cons t rest ih =>
    intro acc
    simp only [List.foldl_cons]
    refine (ih (insertByTime acc t)).trans ?_
    have h1 : (insertByTime acc t ++ rest).Perm ((t :: acc) ++ rest) :=
      (insertByTime_perm acc t).append_right rest
    refine h1.trans ?_
    simp only [List.cons_append]
    exact List.perm_middle.symm

theorem sortByTime_perm (l : List Tweet) : (sortByTime l).Perm l := by
  simpa using foldl_insertByTime_perm l []

theorem foldl_max_zero_perm {l l2 : List Nat} (h : l.Perm l2) :
    l.foldl max 0 = l2.foldl max 0 := by
  induction h with
  | nil => rfl
  | cons a _ ih => rw [listMax_cons, listMax_cons, ih]
  | swap a b l => rw [listMax_cons, listMax_cons, listMax_cons, listMax_cons]; omega
  | trans _ _ ih1 ih2 => rw [ih1, ih2]

theorem filter_foldl_max (l : List Nat) (m : Nat) :
    max m ((l.filter (fun x => decide (m < x))).foldl max 0)
      = max m (l.foldl max 0) := by
  induction l with
  | nil => rfl
  | cons a l ih =>
    simp only [List.filter_cons]
    by_cases hma : m < a
    · rw [if_pos (by simpa using hma), listMax_cons, listMax_cons]
      omega
    · rw [if_neg (by simpa using hma), listMax_cons]
      omega

theorem foldl_max_le (l : List Nat) (m : Nat) (h : ∀ x ∈ l, x ≤ m) :
    l.foldl max 0 ≤ m := by
  induction l with
  | nil => exact Nat.zero_le m
  | cons a l ih =>
    rw [listMax_cons]
    have ha := h a (List.mem_cons_self a l)
    have hl := ih (fun x hx => h x (List.mem_cons_of_mem a hx))
    omega

theorem ids_filter (f : List Tweet) (m : Nat) :
    (f.filter (fun t => decide (m < t.id))).map Tweet.id
      = (f.map Tweet.id).filter (fun x => decide (m < x)) := by
  induction f with
  | nil => rfl
  | cons t f ih =>
    simp only [List.filter_cons, List.map_cons]
    by_cases hmt : m < t.id
    · rw [if_pos (by simpa using hmt), if_pos (by simpa using hmt)]
      simp only [List.map_cons, ih]
    · rw [if_neg (by simpa using hmt), if_neg (by simpa using hmt), ih]

theorem processUser_lookup (env : Env) (ch : Nat) (u : String)
    (hA : ∀ t, (env.analyze t).isSome) (db : DB) (f : List Tweet)
    (w : Option Nat) (hrow : lookupUser db.users u = some w) :
    lookupUser (processUser env ch db u f).db.users u = some (stepMaxW w f) := by
  have hw : watermarkOf db u = w := by
    unfold watermarkOf
    rw [hrow]
  by_cases hfe : f.isEmpty = true
  · simp only [processUser, stepMaxW, hfe, if_true]
    exact hrow
  · have hfeF : f.isEmpty = false := by
      revert hfe
      cases f.isEmpty <;> simp
    cases w with
    | none =>
      have hstep1 : stepMaxW none f = some (maxTweetId f) := by
        unfold stepMaxW
        rw [if_neg (by simp [hfeF])]
      simp only [processUser, hfeF, Bool.false_eq_true, if_false, hw,
        handleNewUser, update_user_last_tweet]
      rw [lookupUser_map_update, hrow, hstep1]
      rfl
    | some m =>
      have hstep2 : stepMaxW (some m) f = some (max m (maxTweetId f)) := by
        unfold stepMaxW
        rw [if_neg (by simp [hfeF])]
      have hmain : processUser env ch db u f = handleExistingUser env ch db u m f := by
        simp only [processUser, hfeF, Bool.false_eq_true, if_false, hw]
      rw [hmain, hstep2]
      by_cases hntE :
          (sortByTime (f.filter (fun t => decide (m < t.id)))).isEmpty = true
      · have hfnil : f.filter (fun t => decide (m < t.id)) = [] := by
          have hnil : sortByTime (f.filter (fun t => decide (m < t.id))) = [] := by
            revert hntE
            cases sortByTime (f.filter (fun t => decide (m < t.id))) <;> simp
          have hp := sortByTime_perm (f.filter (fun t => decide (m < t.id)))
          rw [hnil] at hp
          exact hp.symm.eq_nil
        have hall : ∀ t ∈ f, t.id ≤ m := by
          intro t ht
          by_contra hc
          have hmemf : t ∈ f.filter (fun t => decide (m < t.id)) :=
            List.mem_filter.mpr ⟨ht, by simpa using Nat.lt_of_not_le hc⟩
          rw [hfnil] at hmemf
          cases hmemf
        have hle : maxTweetId f ≤ m := by
          apply foldl_max_le
          intro x hx
          rcases List.mem_map.mp hx with ⟨t, ht, rfl⟩
          exact hall t ht
        simp only [handleExistingUser, hntE, eq_self_iff_true, if_true]
        rw [Nat.max_eq_left hle, hrow]
      · have hntF :
            (sortByTime (f.filter (fun t => decide (m < t.id)))).isEmpty = false := by
          revert hntE
          cases (sortByTime (f.filter (fun t => decide (m < t.id)))).isEmpty <;> simp
        obtain ⟨hab, hnew, huse⟩ := foldl_stepTweet_spec env ch hA
          (sortByTime (f.filter (fun t => decide (m < t.id))))
          ⟨db, m, [], false⟩ rfl
        have hperm : ((sortByTime (f.filter (fun t => decide (m < t.id)))).map
            Tweet.id).Perm ((f.map Tweet.id).filter (fun x => decide (m < x))) := by
          rw [← ids_filter]
          exact (sortByTime_perm _).map Tweet.id
        have hnewval :
            (List.foldl (stepTweet env ch) ⟨db, m, [], false⟩
              (sortByTime (f.filter (fun t => decide (m < t.id))))).newest
            = max m (maxTweetId f) := by
          rw [hnew, foldl_max_eq, foldl_max_zero_perm hperm]
          exact filter_foldl_max (f.map Tweet.id) m
        have hexists : ∃ t ∈ f, m < t.id := by
          have hne2 : f.filter (fun t => decide (m < t.id)) ≠ [] := by
            intro hc
            rw [hc] at hntF
            exact absurd hntF (by simp [sortByTime])
          obtain ⟨t0, ht0⟩ := List.exists_mem_of_ne_nil _ hne2
          have hm0 := List.mem_filter.mp ht0
          exact ⟨t0, hm0.1, by simpa using hm0.2⟩
        have hGT : m < max m (maxTweetId f) := by
          obtain ⟨t0, ht0, hlt⟩ := hexists
          have ht0le : t0.id ≤ maxTweetId f :=
            le_foldl_max _ _ (List.mem_map_of_mem Tweet.id ht0)
          omega
        simp only [handleExistingUser, hntF, Bool.false_eq_true, if_false]
        rw [if_neg (by simp [hab])]
        rw [if_pos (by rw [hnewval]; exact hGT)]
        simp only [update_user_last_tweet]
        rw [lookupUser_map_update, huse, hrow, hnewval]
        rfl

theorem runCycles_lookup (env : Env) (ch : Nat) (u : String)
    (hA : ∀ t, (env.analyze t).isSome) (fetches : List (List Tweet)) :
    ∀ (db : DB) (w : Option Nat),
      lookupUser db.users u = some w →
      lookupUser (runCycles env ch u db fetches).users u
        = some (maxFetched w fetches) := by
  induction fetches with
  | nil => intro db w h; exact h
  | cons f fs ih =>
    intro db w h
    have h1 := processUser_lookup env ch u hA db f w h
    simp only [runCycles, maxFetched, List.foldl_cons] at *
    exact ih _ _ h1

/-- Claim C2 (amended): the store-level write `update_user_last_tweet` is an
unconditional UPDATE (a lower value is not rejected — see the
counterexample); monotonicity is enforced by the caller instead:
`_handle_existing_user` persists the running maximum only when it exceeds
the watermark read at the start of the cycle.  Hence, for an account
processed by a sequence of cycles whose scorer always answers, the stored
watermark afterwards equals the maximum item id ever fetched, and no single
cycle ever decreases the stored watermark. -/
theorem c2_caller_side_monotonicity (env : Env) (ch : Nat) (u : String)
    (hA : ∀ t, (env.analyze t).isSome) :
    (∀ fetches : List (List Tweet),
        watermarkOf (runCycles env ch u (freshDB u) fetches) u
          = maxFetched none fetches)
    ∧ ∀ (db : DB) (f : List Tweet),
        watermarkLe (watermarkOf db u)
          (watermarkOf (processUser env ch db u f).db u) := by
  constructor
  · intro fetches
    have h := runCycles_lookup env ch u hA fetches (freshDB u) none
      (by simp [freshDB, lookupUser])
    unfold watermarkOf
    rw [h]
  · intro db f
    cases hl : lookupUser db.users u with
    | none =>
      have hwn : watermarkOf db u = none := by
        unfold watermarkOf
        rw [hl]
      rw [hwn]
      exact trivial
    | some w2 =>
      have h1 := processUser_lookup env ch u hA db f w2 hl
      have hwo : watermarkOf db u = w2 := by
        unfold watermarkOf
        rw [hl]
      rw [hwo]
      unfold watermarkOf
      rw [h1]
      show watermarkLe w2 (stepMaxW w2 f)
      cases w2 with
      | none => exact trivial
      | some m =>
        by_cases hfe : f.isEmpty = true
        · have hs : stepMaxW (some m) f = some m := by
            unfold stepMaxW
            rw [if_pos hfe]
          rw [hs]
          show m ≤ m
          exact le_refl m
        · have hs : stepMaxW (some m) f = some (max m (maxTweetId f)) := by
            unfold stepMaxW
            rw [if_neg hfe]
          rw [hs]
          show m ≤ max m (maxTweetId f)
          exact Nat.le_max_left _ _

/-- A total environment for the C2 witness: scoring always answers 5 and
every send succeeds. -/
def envW : Env :=
  ⟨fun _ => some ⟨5, "AI", "s", "send", "r"⟩, fun _ => true,
    fun _ => true, fun _ => true⟩

/-- Witness for C2 with a concrete always-answering scorer. -/
theorem c2_caller_side_monotonicity_witness :
    (∀ fetches : List (List Tweet),
        watermarkOf (runCycles envW 1 "alice" (freshDB "alice") fetches) "alice"
          = maxFetched none fetches)
    ∧ ∀ (db : DB) (f : List Tweet),
        watermarkLe (watermarkOf db "alice")
          (watermarkOf (processUser envW 1 db "alice" f).db "alice") :=
  c2_caller_side_monotonicity envW 1 "alice" (fun _ => rfl)

/-! ## C7: reply-processor rejection behaviour -/

/-- A Telegram alert record already in the terminal state `filtered`. -/
def tgRecFiltered : TgRecord := ⟨"elon", "big idea", 9, "AI", "r", "filtered"⟩

/-- Telegram state holding one terminal-state alert. -/
def tgStFiltered : TgState := ⟨[("AI-001", tgRecFiltered)], []⟩

/-- Claim C7 (counterexample): an INTERESTING action on an alert id whose
record is in the terminal state `filtered` is not rejected:
`TelegramBot.process_reply` re-forwards the item to the interesting channel
(a side effect), overwrites the stored status with `interesting`, and
reports success. -/
theorem c7_terminal_action_not_rejected :
    telegramProcessReply ⟨false, true⟩ tgStFiltered "INTERESTING" "AI-001"
        none none
      = .ok (⟨[("AI-001", ⟨"elon", "big idea", 9, "AI", "r", "interesting"⟩)], []⟩,
          [.sentInteresting "elon" "big idea"], true)
    ∧ lookupTg tgStFiltered.pending "AI-001" = some tgRecFiltered
    ∧ tgRecFiltered.status = "filtered" := by
  refine ⟨rfl, rfl, rfl⟩

/-- Claim C7 (amended): the WhatsApp reply processor rejects a reply whose
phone has no pending record with a not-found reply, no side effect and no
exception; the Telegram reply processor applies no existence or
terminal-state check at all — a button action on any alert id, whatever the
stored status, is processed afresh: the forward side effect runs again, the
status is overwritten, and success is reported. -/
theorem c7_notfound_and_no_terminal_check :
    (∀ (env : WaEnv) (st : WaState) (phone reply : String),
        lookupWa st.pending phone = none →
        whatsappProcessReply env st phone reply = .ok (st, [], .notFound))
    ∧ ∀ (st : TgState) (alert : String) (r : TgRecord),
        lookupTg st.pending alert = some r →
        telegramProcessReply ⟨false, true⟩ st "INTERESTING" alert none none
          = .ok (⟨setTgStatus st.pending alert "interesting", st.pendingBuilds⟩,
              [.sentInteresting r.username r.text], true) := by
  constructor
  · intro env st phone reply h
    unfold whatsappProcessReply
    rw [h]
  · intro st alert r hl
    unfold telegramProcessReply
    rw [hl]
    rfl

/-- Witness for C7 at a concrete unknown phone and a concrete pending alert. -/
theorem c7_notfound_and_no_terminal_check_witness :
    whatsappProcessReply ⟨true, true, true⟩ ⟨[]⟩ "+123" "INTERESTING"
      = .ok (⟨[]⟩, [], .notFound)
    ∧ telegramProcessReply ⟨false, true⟩
        ⟨[("AI-002", ⟨"bob", "idea", 9, "AI", "r", "pending"⟩)], []⟩
        "INTERESTING" "AI-002" none none
      = .ok (⟨setTgStatus
            [("AI-002", ⟨"bob", "idea", 9, "AI", "r", "pending"⟩)]
            "AI-002" "interesting", []⟩,
          [.sentInteresting "bob" "idea"], true) :=
  ⟨c7_notfound_and_no_terminal_check.1 ⟨true, true, true⟩ ⟨[]⟩ "+123"
      "INTERESTING" rfl,
    c7_notfound_and_no_terminal_check.2
      ⟨[("AI-002", ⟨"bob", "idea", 9, "AI", "r", "pending"⟩)], []⟩ "AI-002"
      ⟨"bob", "idea", 9, "AI", "r", "pending"⟩ rfl⟩

/-! ## C8: the BUILD escalation flow -/

/-- A pending Telegram alert for the C8 failing input. -/
def tgRecPending : TgRecord := ⟨"elon", "ai agent idea", 9, "AI", "r", "pending"⟩

/-- Telegram state holding that pending alert and no durable build rows. -/
def tgStPending : TgState := ⟨[("AI-001", tgRecPending)], []⟩

/-- Claim C8 (failing input): a BUILD reply on a pending alert sends the
requirements prompt, but the durable awaiting-requirements record is never
created — `db.create_pending_build` does not exist on the `Database` class
and the `AttributeError` is swallowed — so the state is entirely unchanged
(the record keeps status `pending`).  The subsequent free-text reply then
raises an uncaught `AttributeError` from `db.get_pending_build`, so the
build collaborator is never invoked and no terminal outcome is recorded. -/
theorem c8_requirements_flow_crashes :
    pyGetAttr databaseMethods "create_pending_build"
      = .error (.attributeError "create_pending_build")
    ∧ telegramProcessReply ⟨false, true⟩ tgStPending "BUILD" "AI-001" none (some 5)
      = .ok (tgStPending, [.sentPrompt "AI-001"], true)
    ∧ telegramProcessReply ⟨false, true⟩ tgStPending "BUILD_CUSTOM" "AI-001"
        (some "use the cheap model") (some 5)
      = .error (.attributeError "get_pending_build")
    ∧ lookupTg tgStPending.pending "AI-001" = some tgRecPending
    ∧ tgRecPending.status = "pending" := by
  refine ⟨rfl, rfl, rfl, rfl, rfl⟩
